import Mathlib

/-!
Shallow embedding of the scan-session controller in
`src/components/Scanner.tsx` and of the `scanners` table schema from
`supabase/migrations/20251209123304_create_scanners_table.sql`.

React `useState` state is modelled as an explicit record (`ScanState`);
each handler becomes a pure function from its inputs (and the outcomes of
the external store calls, passed in as parameters) to the new state plus
the observable effects it issues: history rows inserted, store operations
dispatched, and `setTimeout` timers scheduled.
-/

/-- The four values of the `scanStatus` state variable. -/
inductive ScanStatus
  | idle
  | detecting
  | success
  | error
deriving DecidableEq

/-- The `scan_method` values accepted by `saveScanHistory`
(`'camera' | 'manual' | 'excel'`). -/
inductive ScanMethod
  | camera
  | manual
  | excel
deriving DecidableEq

/-- A product row, with the fields the component reads
(`serial_number`, `product_name`, `product_code`, `packaging`,
`production_order`, `production_date`, `production_time`, `location`). -/
structure Product where
  serial_number : String
  product_name : String
  product_code : String
  packaging : String
  production_order : String
  production_time : String
  production_date : String
  location : String
deriving DecidableEq

/-- A row inserted into `scan_history` by `saveScanHistory`. -/
structure HistoryEvent where
  user_id : String
  serial_number : String
  scan_method : ScanMethod
deriving DecidableEq

/-- The component state touched by the scan-session handlers:
`cameraActive`, `scannedProduct`, `scanStatus` and `error`. -/
structure ScanState where
  cameraActive : Bool
  scannedProduct : Option Product
  scanStatus : ScanStatus
  error : String
deriving DecidableEq

/-- Drops leading whitespace characters from a character list. -/
def dropWhileWs : List Char → List Char
  | [] => []
  | c :: cs => if c.isWhitespace then dropWhileWs cs else c :: cs

/-- Model of JavaScript `String.prototype.trim`: strips whitespace from
both ends of the string. -/
def strTrim (s : String) : String :=
  ⟨(dropWhileWs (dropWhileWs s.data).reverse).reverse⟩

/-- Whether `needle` occurs at the start of `hay` (character lists). -/
def charsBeginWith : List Char → List Char → Bool
  | _, [] => true
  | [], _ :: _ => false
  | a :: as, b :: bs => a == b && charsBeginWith as bs

/-- Whether `needle` occurs anywhere inside `hay` (character lists). -/
def charsHaveSub : List Char → List Char → Bool
  | [], needle => needle.isEmpty
  | a :: as, needle => charsBeginWith (a :: as) needle || charsHaveSub as needle

/-- Model of JavaScript `String.prototype.includes`: case-sensitive
substring containment. -/
def strIncludes (hay needle : String) : Bool :=
  charsHaveSub hay.data needle.data

/-- The body of a `setTimeout` callback scheduled by `searchProduct`:
both the success and the not-found branch schedule
`() => setScanStatus('idle')`. -/
inductive TimerAction
  | resetStatusIdle
deriving DecidableEq

/-- A scheduled `setTimeout(action, delayMs)`. -/
structure Timer where
  delayMs : Nat
  action : TimerAction
deriving DecidableEq

/-- Runs a scheduled timer callback on the component state:
`resetStatusIdle` performs exactly `setScanStatus('idle')`. -/
def runTimerAction : TimerAction → ScanState → ScanState
  | .resetStatusIdle, s => { s with scanStatus := .idle }

/-- The store query issued by `searchProduct`:
`from('products').select('*').eq('serial_number', sn).maybeSingle()` —
the first row whose `serial_number` equals the argument, if any. -/
def findBySerial (store : List Product) (serialNumber : String) : Option Product :=
  store.find? (fun p => p.serial_number == serialNumber)

/-- `saveScanHistory(serialNumber, method)`: returns early with no insert
when no user is signed in; otherwise inserts one `scan_history` row with
the given method.  Insert failures are caught and swallowed in the source,
so the function never propagates an error. -/
def saveScanHistory (userId : Option String) (serialNumber : String)
    (method : ScanMethod) : List HistoryEvent :=
  match userId with
  | none => []
  | some uid => [{ user_id := uid, serial_number := serialNumber, scan_method := method }]

/-- Result of a `searchProduct` call: the new component state, the
`scan_history` rows inserted, and the `setTimeout` timers scheduled. -/
structure SearchResult where
  state : ScanState
  history : List HistoryEvent
  timers : List Timer
deriving DecidableEq

/-- `searchProduct(serialNumber)`.  `queryFails` is true when the store
query itself errors (the `searchError`/thrown path).  On a match: set the
product, set status `success`, call `saveScanHistory(serialNumber, 'camera')`
(the method is hardcoded to `'camera'` at this call site), and schedule a
2000 ms reset to `idle`.  On no match: set status `error` with the
not-found message, clear the product, and schedule the same 2000 ms reset.
On query failure: set status `error` with a generic message — the catch
branch schedules no timer. -/
def searchProduct (userId : Option String) (store : List Product)
    (queryFails : Bool) (serialNumber : String) (s : ScanState) : SearchResult :=
  if queryFails then
    { state := { s with scanStatus := .error, error := "Error searching product" },
      history := [], timers := [] }
  else
    match findBySerial store serialNumber with
    | some data =>
        { state := { s with scannedProduct := some data, scanStatus := .success },
          history := saveScanHistory userId serialNumber .camera,
          timers := [{ delayMs := 2000, action := .resetStatusIdle }] }
    | none =>
        { state := { s with scanStatus := .error,
                            error := "Produk tidak ditemukan di database",
                            scannedProduct := none },
          history := [], timers := [{ delayMs := 2000, action := .resetStatusIdle }] }

/-- Result of `handleManualSearch`: `result` is `none` when the trimmed
input is empty (no search performed); otherwise the `searchProduct`
outcome, with the `manualSN` input field cleared. -/
structure ManualSearchResult where
  result : Option SearchResult
  manualSN : String
deriving DecidableEq

/-- `handleManualSearch`: if `manualSN.trim()` is non-empty, call
`searchProduct(manualSN.trim())` and clear the input; otherwise do
nothing. -/
def handleManualSearch (userId : Option String) (store : List Product)
    (queryFails : Bool) (manualSN : String) (s : ScanState) : ManualSearchResult :=
  if strTrim manualSN != "" then
    { result := some (searchProduct userId store queryFails (strTrim manualSN) s),
      manualSN := "" }
  else
    { result := none, manualSN := manualSN }

/-- Result of the decode callback passed to `html5QrCode.start`: the state
after its synchronous part, plus the `setTimeout` it schedules —
`scheduledLookup` is the argument the delayed closure will pass to
`searchProduct`, or `none` when `decodedText.trim()` is empty and the
closure does nothing. -/
structure DecodeCallbackResult where
  state : ScanState
  scheduledDelayMs : Nat
  scheduledLookup : Option String
deriving DecidableEq

/-- The decode callback: synchronously `setScanStatus('detecting')`, then
`setTimeout(() => { if (decodedText.trim()) searchProduct(decodedText.trim()) }, 300)`. -/
def onDecode (decodedText : String) (s : ScanState) : DecodeCallbackResult :=
  { state := { s with scanStatus := .detecting },
    scheduledDelayMs := 300,
    scheduledLookup := if strTrim decodedText != "" then some (strTrim decodedText) else none }

/-- A camera handle as returned by `Html5Qrcode.getCameras()`. -/
structure CameraDevice where
  id : String
  label : String
deriving DecidableEq

/-- The scan configuration passed to `html5QrCode.start`.  The source also
passes `aspectRatio: 1.0`, a float not modelled here. -/
structure ScanConfig where
  fps : Nat
  qrboxWidth : Nat
  qrboxHeight : Nat
deriving DecidableEq

/-- The literal config in `startCamera`:
`{ fps: 10, qrbox: { width: 300, height: 300 }, aspectRatio: 1.0 }`. -/
def scanConfig : ScanConfig :=
  { fps := 10, qrboxWidth := 300, qrboxHeight := 300 }

/-- The message of the error thrown when `getCameras()` is empty:
`throw new Error('No cameras found on this device')`. -/
def noCamerasMessage : String := "No cameras found on this device"

/-- The catch handler of `startCamera`: classifies the error message by
`includes` checks, in source order, into one of three user-facing
strings. -/
def cameraErrorMessage (errorMessage : String) : String :=
  if strIncludes errorMessage "camera" || strIncludes errorMessage "permission"
      || strIncludes errorMessage "Permission denied" then
    "Camera permission denied. Please allow camera access in your browser settings and try again."
  else if strIncludes errorMessage "No cameras" then
    "No camera found on this device. Please check your device has a working camera."
  else
    "Failed to access camera. Please check your permissions and device settings."

/-- Outcome of `startCamera`: capture started on a given camera with a
given config, or the catch handler ran. -/
inductive StartOutcome
  | started (cameraId : String) (config : ScanConfig)
  | failed
deriving DecidableEq

/-- Result of `startCamera`: final component state and outcome. -/
structure StartResult where
  state : ScanState
  outcome : StartOutcome
deriving DecidableEq

/-- The catch block of `startCamera`: set `error` to the classified
message and `cameraActive` back to `false`. -/
def catchCameraError (errorMessage : String) (s : ScanState) : StartResult :=
  { state := { s with error := cameraErrorMessage errorMessage, cameraActive := false },
    outcome := .failed }

/-- `startCamera`: set `cameraActive=true`, `scanStatus='idle'`, clear
`error`; if `getCameras()` is empty, throw the no-cameras error (handled
by the catch block); otherwise select `cameras[cameras.length - 1]` and
start capture with `scanConfig`.  `startErrMsg` is the message of an
error thrown by the underlying `start` call, if any (e.g. a permission
denial). -/
def startCamera (cameras : List CameraDevice) (startErrMsg : Option String)
    (s : ScanState) : StartResult :=
  let s1 := { s with cameraActive := true, scanStatus := ScanStatus.idle, error := "" }
  if h : cameras.length = 0 then
    catchCameraError noCamerasMessage s1
  else
    let cam := cameras.get ⟨cameras.length - 1, Nat.sub_lt (Nat.pos_of_ne_zero h) Nat.one_pos⟩
    match startErrMsg with
    | some msg => catchCameraError msg s1
    | none => { state := s1, outcome := .started cam.id scanConfig }

/-- Result of `stopCamera`: the new state, whether the underlying
`html5QrCodeRef.current.stop()` was invoked, and the message logged (not
surfaced) when that call failed. -/
structure StopResult where
  state : ScanState
  stopCalled : Bool
  loggedError : Option String
deriving DecidableEq

/-- `stopCamera`: inside a try block, call the underlying `stop()` only
when a capture handle exists and `isScanning`; any failure of that call is
caught and logged.  Afterwards, unconditionally set `cameraActive=false`
and `scanStatus='idle'`.  The `error` state variable is never touched. -/
def stopCamera (hasRef isScanning stopFails : Bool) (s : ScanState) : StopResult :=
  let doStop := hasRef && isScanning
  { state := { s with cameraActive := false, scanStatus := ScanStatus.idle },
    stopCalled := doStop,
    loggedError := if doStop && stopFails then some "Error stopping camera:" else none }

/-- A scanner-profile row as read by the component (the `Scanner`
interface at the top of the file). -/
structure Scanner where
  id : String
  scanner_name : String
  scanner_type : String
  device_info : Option String
  is_active : Bool
  created_at : String
deriving DecidableEq

/-- A store operation dispatched by the scanner-registry handlers:
a `delete` on `scanners` filtered by id and user, or the `select` issued
by `loadScanners` (a re-fetch). -/
inductive StoreOp
  | deleteScanners (scannerId : String) (userId : Option String)
  | selectScanners (userId : Option String)
deriving DecidableEq

/-- Result of `deleteScannerInfo`: the new local `scanners` list, the new
`error` state, and every store operation dispatched. -/
structure DeleteResult where
  scanners : List Scanner
  error : String
  storeOps : List StoreOp
deriving DecidableEq

/-- `deleteScannerInfo(scannerId)`: return immediately when the `confirm`
dialog is declined (no store call); otherwise issue the delete.  On
success, set `scanners` to `scanners.filter(s => s.id !== scannerId)` and
clear `error`; on failure, set the failure message.  No re-fetch is issued
on either path. -/
def deleteScannerInfo (confirmed deleteFails : Bool) (userId : Option String)
    (scannerId : String) (scanners : List Scanner) (errState : String) : DeleteResult :=
  if confirmed = false then
    { scanners := scanners, error := errState, storeOps := [] }
  else if deleteFails then
    { scanners := scanners, error := "Failed to delete scanner",
      storeOps := [.deleteScanners scannerId userId] }
  else
    { scanners := scanners.filter (fun sc => sc.id != scannerId), error := "",
      storeOps := [.deleteScanners scannerId userId] }

/-- A row of the `scanners` table (migration
`20251209123304_create_scanners_table.sql`), which declares
`UNIQUE(user_id, scanner_name)` and primary key `id`. -/
structure ScannerRow where
  id : String
  user_id : String
  scanner_name : String
  scanner_type : String
  device_info : String
  is_active : Bool
  last_used_at : String
deriving DecidableEq

/-- Models the store call `supabase.from('scanners').upsert({...})` as the
source writes it, with no `onConflict` option: PostgREST then resolves
conflicts on the primary key (`id`) only.  The inserted row carries no
`id`, so a fresh one (`freshId`, modelling `gen_random_uuid()`) is
generated and the primary-key conflict branch never fires; the
`UNIQUE(user_id, scanner_name)` constraint from the migration is enforced
as a plain constraint and aborts the statement when violated. -/
def upsertScannerRow (table : List ScannerRow) (row : ScannerRow) :
    Except String (List ScannerRow) :=
  if table.any (fun r => r.id == row.id) then
    let updated := table.map (fun r => if r.id == row.id then row else r)
    if updated.any (fun r => r.id != row.id && r.user_id == row.user_id
        && r.scanner_name == row.scanner_name) then
      .error "duplicate key value violates unique constraint"
    else
      .ok updated
  else
    if table.any (fun r => r.user_id == row.user_id && r.scanner_name == row.scanner_name) then
      .error "duplicate key value violates unique constraint"
    else
      .ok (table ++ [row])

/-- Result of `registerCurrentScanner`: the resulting `scanners` table,
the `error` state, and whether the upsert succeeded. -/
structure RegisterResult where
  table : List ScannerRow
  error : String
  registered : Bool
deriving DecidableEq

/-- `registerCurrentScanner`: no-op without a signed-in user; otherwise
upsert a row named `Camera-` + the current date string, type `camera`,
`is_active=true`, `last_used_at=now`, with a fresh generated id.  When the
upsert returns an error the catch block sets
`error='Failed to register scanner'` and the table is unchanged. -/
def registerCurrentScanner (userId : Option String) (freshId dateString deviceInfo nowIso : String)
    (table : List ScannerRow) (errState : String) : RegisterResult :=
  match userId with
  | none => { table := table, error := errState, registered := false }
  | some uid =>
      let row : ScannerRow :=
        { id := freshId, user_id := uid, scanner_name := "Camera-" ++ dateString,
          scanner_type := "camera", device_info := deviceInfo,
          is_active := true, last_used_at := nowIso }
      match upsertScannerRow table row with
      | .ok t => { table := t, error := errState, registered := true }
      | .error _ => { table := table, error := "Failed to register scanner", registered := false }

/-- The component state at mount: camera off, no product, status idle, no
error message. -/
def initState : ScanState :=
  { cameraActive := false, scannedProduct := none, scanStatus := .idle, error := "" }

/-- A sample product row used to instantiate concrete scenarios. -/
def sampleProduct : Product :=
  { serial_number := "SN-001", product_name := "Widget", product_code := "PC-1",
    packaging := "Box", production_order := "PO-7", production_time := "10:00",
    production_date := "2025-01-01", location := "WH-1" }

/-- An existing `scanners` row for user `u1` named `Camera-12/9/2025`,
used to instantiate the duplicate-name upsert scenario. -/
def row0 : ScannerRow :=
  { id := "id0", user_id := "u1", scanner_name := "Camera-12/9/2025",
    scanner_type := "camera", device_info := "agent-old", is_active := false,
    last_used_at := "2025-12-08T00:00:00Z" }

/-- Claim C1 (counterexample): a manual search of `SN-001` against a store
holding that serial records a history event with method `camera`, not
`manual` — `searchProduct` hardcodes the `'camera'` tag, so the recorded
method does not equal the method of the entry path. -/
theorem c1_counterexample :
    Option.map SearchResult.history
        (handleManualSearch (some "u1") [sampleProduct] false "SN-001" initState).result =
      some [{ user_id := "u1", serial_number := "SN-001", scan_method := ScanMethod.camera }] ∧
    ScanMethod.camera ≠ ScanMethod.manual := by
  decide

/-- Claim C1 (amended): for every serial value present in the product
store, `searchProduct` transitions the status to `success`, sets the
displayed product to the stored record, and (with a signed-in user)
records exactly one history event — whose method is always `camera`,
regardless of the entry path. -/
theorem c1_amended (u : String) (store : List Product) (sn : String)
    (s : ScanState) (p : Product) (h : findBySerial store sn = some p) :
    (searchProduct (some u) store false sn s).state.scanStatus = .success ∧
    (searchProduct (some u) store false sn s).state.scannedProduct = some p ∧
    (searchProduct (some u) store false sn s).history =
      [{ user_id := u, serial_number := sn, scan_method := .camera }] := by
  simp [searchProduct, h, saveScanHistory]

/-- Witness for `c1_amended` at the Scenario A inputs. -/
theorem c1_amended_witness :
    (searchProduct (some "u1") [sampleProduct] false "SN-001" initState).state.scanStatus = .success ∧
    (searchProduct (some "u1") [sampleProduct] false "SN-001" initState).state.scannedProduct =
      some sampleProduct ∧
    (searchProduct (some "u1") [sampleProduct] false "SN-001" initState).history =
      [{ user_id := "u1", serial_number := "SN-001", scan_method := .camera }] :=
  c1_amended "u1" [sampleProduct] "SN-001" initState sampleProduct (by decide)

/-- Claim C2 (code evaluated at the failing input): with zero enumerated
cameras, `startCamera` fails and leaves `cameraActive=false`, but the
user-facing message is the permission-denied string — the thrown message
`No cameras found on this device` contains the substring `camera`, so the
first `includes` check captures it and the dedicated `No cameras` branch
is unreachable; the displayed message does not contain `No camera found`,
and the no-camera and permission-denied error kinds collapse to the same
message. -/
theorem c2_no_camera_behavior :
    (startCamera [] none initState).outcome = .failed ∧
    (startCamera [] none initState).state.cameraActive = false ∧
    (startCamera [] none initState).state.error =
      "Camera permission denied. Please allow camera access in your browser settings and try again." ∧
    strIncludes (startCamera [] none initState).state.error "No camera found" = false ∧
    cameraErrorMessage noCamerasMessage = cameraErrorMessage "Permission denied" := by
  decide

/-- Claim C3 (counterexample): when the store query itself fails, the
session enters `error` but no reset timer is scheduled — the catch branch
of `searchProduct` has no `setTimeout`, so the status does not return to
`idle` after 2 seconds. -/
theorem c3_counterexample :
    (searchProduct (some "u1") [] true "SN-001" initState).state.scanStatus = .error ∧
    (searchProduct (some "u1") [] true "SN-001" initState).timers = [] := by
  decide

/-- Claim C3 (amended): for the two outcomes of a lookup whose query
succeeds (match found or no match), `searchProduct` schedules exactly one
2000 ms timer whose action returns the status to `idle`; the query-failure
outcome enters `error` without scheduling any reset. -/
theorem c3_amended (userId : Option String) (store : List Product)
    (sn : String) (s : ScanState) :
    (searchProduct userId store false sn s).timers =
      [{ delayMs := 2000, action := .resetStatusIdle }] ∧
    (runTimerAction .resetStatusIdle (searchProduct userId store false sn s).state).scanStatus =
      .idle := by
  cases h : findBySerial store sn <;> simp [searchProduct, h, runTimerAction]

/-- Claim C4 (code evaluated at the failing input): for user `u1` who
already has a profile named `Camera-12/9/2025`, running
`registerCurrentScanner` again with that name fails — the upsert carries
no `onConflict` option, so the conflict target is the primary key; the
inserted row has a fresh generated id, the insert hits the
`UNIQUE(user_id, scanner_name)` constraint, and the catch block sets
`error='Failed to register scanner'` while the table keeps the old row
(`is_active` still false, `last_used_at` unchanged) instead of replacing
it. -/
theorem c4_duplicate_name_fails :
    (registerCurrentScanner (some "u1") "id1" "12/9/2025" "agent-new"
        "2025-12-09T10:00:00Z" [row0] "").registered = false ∧
    (registerCurrentScanner (some "u1") "id1" "12/9/2025" "agent-new"
        "2025-12-09T10:00:00Z" [row0] "").error = "Failed to register scanner" ∧
    (registerCurrentScanner (some "u1") "id1" "12/9/2025" "agent-new"
        "2025-12-09T10:00:00Z" [row0] "").table = [row0] ∧
    row0.is_active = false := by
  decide

/-- Claim C5 (counterexample): a decode callback carrying whitespace-only
text still moves the session out of `idle` — the callback sets
`scanStatus='detecting'` synchronously and unconditionally, before any
settle delay and regardless of the text content. -/
theorem c5_counterexample :
    (onDecode "   " initState).state.scanStatus = .detecting ∧
    ScanStatus.detecting ≠ ScanStatus.idle ∧
    strTrim "   " = "" := by
  decide

/-- Claim C5 (amended): every decode callback transitions the status to
`detecting` immediately (the only state change of its synchronous part),
regardless of the decoded text; the 300 ms settle delay defers only the
lookup, not the transition. -/
theorem c5_amended (decodedText : String) (s : ScanState) :
    (onDecode decodedText s).state = { s with scanStatus := .detecting } ∧
    (onDecode decodedText s).scheduledDelayMs = 300 := by
  exact ⟨rfl, rfl⟩

/-- Claim C6: every decode callback schedules its lookup behind a fixed
300 ms `setTimeout` rather than invoking it synchronously (the synchronous
part never touches the displayed product), and whitespace-only decoded
text is discarded — the delayed closure issues no lookup for it. -/
theorem c6_decode_debounce (decodedText : String) (s : ScanState) :
    (onDecode decodedText s).scheduledDelayMs = 300 ∧
    (strTrim decodedText = "" → (onDecode decodedText s).scheduledLookup = none) ∧
    (onDecode decodedText s).state.scannedProduct = s.scannedProduct := by
  refine ⟨rfl, ?_, rfl⟩
  intro h
  simp [onDecode, h]

/-- Witness for `c6_decode_debounce` at a whitespace-only decode. -/
theorem c6_decode_debounce_witness :
    strTrim " \t " = "" ∧
    (onDecode " \t " initState).scheduledLookup = none ∧
    (onDecode " \t " initState).scheduledDelayMs = 300 :=
  ⟨by decide, (c6_decode_debounce " \t " initState).2.1 (by decide),
    (c6_decode_debounce " \t " initState).1⟩

/-- Claim C7: for every non-empty camera enumeration, `startCamera`
starts capture on the camera at index `length - 1` (the last one), with
the literal config: 10 frames per second and a square detection window. -/
theorem c7_camera_selection (cameras : List CameraDevice) (s : ScanState)
    (h : cameras ≠ []) :
    (startCamera cameras none s).outcome =
      .started (cameras.get ⟨cameras.length - 1,
        Nat.sub_lt (List.length_pos.mpr h) Nat.one_pos⟩).id scanConfig ∧
    scanConfig.fps = 10 ∧
    scanConfig.qrboxWidth = scanConfig.qrboxHeight := by
  have h0 : ¬ cameras.length = 0 := by simpa using h
  refine ⟨?_, rfl, rfl⟩
  simp [startCamera, h0]

/-- Witness for `c7_camera_selection` on a two-camera enumeration: the
second (last) camera is selected. -/
theorem c7_camera_selection_witness :
    (startCamera [{ id := "cam0", label := "front" }, { id := "cam1", label := "back" }]
        none initState).outcome = .started "cam1" scanConfig ∧
    scanConfig.fps = 10 ∧
    scanConfig.qrboxWidth = scanConfig.qrboxHeight := by
  have h := c7_camera_selection
    [{ id := "cam0", label := "front" }, { id := "cam1", label := "back" }]
    initState (by decide)
  simpa using h

/-- Claim C8: `stopCamera` is total and idempotent — it always ends with
`cameraActive=false` and status `idle`, never touches the `error` state
(an underlying stop failure is logged, not surfaced), calls the underlying
stop only when a capture is active (so an inactive stop issues no call and
logs nothing), and a second stop leaves the state fixed. -/
theorem c8_stop_camera (hasRef isScanning stopFails hasRef2 isScanning2 stopFails2 : Bool)
    (s : ScanState) :
    (stopCamera hasRef isScanning stopFails s).state.cameraActive = false ∧
    (stopCamera hasRef isScanning stopFails s).state.scanStatus = .idle ∧
    (stopCamera hasRef isScanning stopFails s).state.error = s.error ∧
    ((hasRef && isScanning) = false →
      (stopCamera hasRef isScanning stopFails s).stopCalled = false ∧
      (stopCamera hasRef isScanning stopFails s).loggedError = none) ∧
    (stopCamera hasRef2 isScanning2 stopFails2
        (stopCamera hasRef isScanning stopFails s).state).state =
      (stopCamera hasRef isScanning stopFails s).state := by
  refine ⟨rfl, rfl, rfl, ?_, rfl⟩
  intro h
  simp [stopCamera, h]

/-- Witness for `c8_stop_camera`: stopping with no active capture issues
no underlying stop call, logs nothing, and leaves the status `idle`. -/
theorem c8_stop_camera_witness :
    (stopCamera false false false initState).state.scanStatus = .idle ∧
    (stopCamera false false false initState).stopCalled = false ∧
    (stopCamera false false false initState).loggedError = none := by
  have h := c8_stop_camera false false false false false false initState
  exact ⟨h.2.1, (h.2.2.2.1 (by decide)).1, (h.2.2.2.1 (by decide)).2⟩

/-- Claim C9: `deleteScannerInfo` with the confirmation declined leaves
the local list unchanged and dispatches no store operation; with the
confirmation accepted and a successful store delete, it dispatches exactly
one delete operation (no re-fetch) and updates the local list by filtering
out the deleted id. -/
theorem c9_delete_scanner (deleteFails : Bool) (userId : Option String)
    (scannerId : String) (scanners : List Scanner) (errState : String) :
    ((deleteScannerInfo false deleteFails userId scannerId scanners errState).scanners =
        scanners ∧
     (deleteScannerInfo false deleteFails userId scannerId scanners errState).storeOps = []) ∧
    ((deleteScannerInfo true false userId scannerId scanners errState).scanners =
        scanners.filter (fun sc => sc.id != scannerId) ∧
     (deleteScannerInfo true false userId scannerId scanners errState).storeOps =
        [.deleteScanners scannerId userId]) := by
  simp [deleteScannerInfo]

/-- Claim C10: after a successful lookup, `searchProduct` schedules
exactly one 2000 ms timer, and running that timer's action on any state
sets only `scanStatus` back to `idle` — the displayed product, the error
message and the camera flag are unchanged, so the product found by the
last successful lookup remains displayed after the reset. -/
theorem c10_auto_reset_frame (u : String) (store : List Product) (sn : String)
    (st : ScanState) (p : Product) (h : findBySerial store sn = some p) :
    (searchProduct (some u) store false sn st).timers =
      [{ delayMs := 2000, action := .resetStatusIdle }] ∧
    ∀ s : ScanState,
      (runTimerAction .resetStatusIdle s).scanStatus = .idle ∧
      (runTimerAction .resetStatusIdle s).scannedProduct = s.scannedProduct ∧
      (runTimerAction .resetStatusIdle s).error = s.error ∧
      (runTimerAction .resetStatusIdle s).cameraActive = s.cameraActive := by
  refine ⟨by simp [searchProduct, h], ?_⟩
  intro s
  exact ⟨rfl, rfl, rfl, rfl⟩

/-- Witness for `c10_auto_reset_frame` at the Scenario A inputs. -/
theorem c10_auto_reset_frame_witness :
    (searchProduct (some "u1") [sampleProduct] false "SN-001" initState).timers =
      [{ delayMs := 2000, action := TimerAction.resetStatusIdle }] ∧
    (runTimerAction .resetStatusIdle initState).scannedProduct = initState.scannedProduct := by
  have h := c10_auto_reset_frame "u1" [sampleProduct] "SN-001" initState sampleProduct (by decide)
  exact ⟨h.1, (h.2 initState).2.1⟩
